import Mathlib

/-!
Shallow embedding of `customqt` (src/customqt/constants.py and
src/customqt/windows.py): the `WindowsStyler` native-message dispatcher,
its hit-test state machine, min/max constraint computation, cursor
bookkeeping and the debounced rounded-corner controller.

Python integers are modelled as `Int` (machine words never overflow a
Python int); Python `None`-or-value fields as `Option Int` with the
truthiness test made explicit; Python exceptions as an enumeration of
exception classes threaded through `Except`.  Wall-clock time
(`time.time()`, seconds as float) is modelled in integer milliseconds,
which is exact for the 50 ms arithmetic the code performs.
-/

namespace CustomQt

/-! ### Constant table, from src/customqt/constants.py -/

namespace Windows

def WM_NCHITTEST : Int := 0x0084

def WM_NCCALCSIZE : Int := 0x0083

def WM_NCPAINT : Int := 0x0085

def WM_NCACTIVATE : Int := 0x0086

def WM_GETMINMAXINFO : Int := 0x0024

def WM_SIZE : Int := 0x0005

def WM_WINDOWPOSCHANGED : Int := 0x0047

def WM_EXITSIZEMOVE : Int := 0x0232

def WM_DPICHANGED : Int := 0x02E0

def WM_NCLBUTTONDOWN : Int := 0x00A1

def WM_NCLBUTTONUP : Int := 0x00A2

def WM_NCLBUTTONDBLCLK : Int := 0x00A3

def WM_SETCURSOR : Int := 0x0020

def HTCLIENT : Int := 1

def HTCAPTION : Int := 2

def HTMAXBUTTON : Int := 9

def HTLEFT : Int := 10

def HTRIGHT : Int := 11

def HTTOP : Int := 12

def HTTOPLEFT : Int := 13

def HTTOPRIGHT : Int := 14

def HTBOTTOM : Int := 15

def HTBOTTOMLEFT : Int := 16

def HTBOTTOMRIGHT : Int := 17

def SW_MAXIMIZE : Int := 3

def SW_RESTORE : Int := 9

def IDC_HAND : Int := 32649

end Windows

/-- The four corner resize hit-test codes. -/
def cornerCodes : List Int :=
  [Windows.HTTOPLEFT, Windows.HTTOPRIGHT, Windows.HTBOTTOMLEFT, Windows.HTBOTTOMRIGHT]

/-- The four edge resize hit-test codes. -/
def edgeCodes : List Int :=
  [Windows.HTLEFT, Windows.HTRIGHT, Windows.HTTOP, Windows.HTBOTTOM]

/-- All border (edge or corner) resize hit-test codes. -/
def borderCodes : List Int := cornerCodes ++ edgeCodes

/-! ### Python exception classes

Every constructor models a subclass of Python `Exception`, so a broad
`except Exception` clause catches all of them, while the narrow clauses
in the source catch only the listed classes. -/

inductive PyExc where
  | osError
  | valueError
  | typeError
  | attributeError
  | overflowError
  | runtimeError
  | keyError
  | zeroDivisionError
  deriving DecidableEq, Repr

/-- The classes caught by `except (AttributeError, TypeError, ValueError)`
around the title-bar hook call in `WindowsStyler._dispatch_titlebar`. -/
def caughtByTitlebarHook : PyExc → Bool
  | .attributeError => true
  | .typeError => true
  | .valueError => true
  | _ => false

/-- The classes caught by `except (OSError, ValueError)` wrapping the body
of `WindowsStyler._handle_getminmax`. -/
def caughtByGetMinMax : PyExc → Bool
  | .osError => true
  | .valueError => true
  | _ => false

/-! ### Configuration fields set in `WindowsStyler.__init__` -/

/-- The caller-supplied title-bar hit-test hook: from a global pointer
position to an optional (handled, hit-test-code) answer; it may raise. -/
def TitlebarHook : Type := Int × Int → Except PyExc (Option (Bool × Int))

structure Config where
  BORDER_WIDTH : Int := 8
  TITLE_BAR_FALLBACK : Bool := true
  TITLE_BAR_FALLBACK_HEIGHT : Int := 30
  ROUND_CORNER_RADIUS : Int := 15
  titlebar_hook : Option TitlebarHook := none

/-- `WindowsStyler._dispatch_titlebar(global_pos, y)`: consult the hook if
present; a hook exception of one of the classes in `caughtByTitlebarHook`
falls through to the fallback, any other class propagates.  The fallback
answers caption when the fallback is enabled and `y` is above the
configured fallback title-bar height, else (False, 0). -/
def dispatch_titlebar (cfg : Config) (global_pos : Int × Int) (y : Int) :
    Except PyExc (Bool × Int) :=
  let fallback : Bool × Int :=
    if cfg.TITLE_BAR_FALLBACK && decide (y < cfg.TITLE_BAR_FALLBACK_HEIGHT) then
      (true, Windows.HTCAPTION)
    else (false, 0)
  match cfg.titlebar_hook with
  | none => .ok fallback
  | some hook =>
    match hook global_pos with
    | .ok (some result) => .ok result
    | .ok none => .ok fallback
    | .error e =>
      if caughtByTitlebarHook e then .ok fallback else .error e

/-! ### Hit-testing, `WindowsStyler._handle_hittest` -/

/-- The quantities the handler reads from the toolkit before testing:
global cursor position `pt`, window-local `x`,`y`, window `w`,`h`, and
`bw = int(BORDER_WIDTH * devicePixelRatio())`, the scaled border. -/
structure HitGeo where
  pt : Int × Int
  x : Int
  y : Int
  w : Int
  h : Int
  bw : Int
  deriving DecidableEq, Repr

/-- Body of the `try` block of `_handle_hittest`.  The toolkit queries are
passed in as `geo`; they may raise (e.g. `RuntimeError` on a deleted
widget), modelled by `geo` being an `Except`. -/
def handle_hittest_core (cfg : Config) (maximized : Bool)
    (geo : Except PyExc HitGeo) : Except PyExc (Bool × Int) :=
  match geo with
  | .error e => .error e
  | .ok g =>
    if maximized then dispatch_titlebar cfg g.pt g.y
    else if g.x < g.bw ∧ g.y < g.bw then .ok (true, Windows.HTTOPLEFT)
    else if g.x > g.w - g.bw ∧ g.y < g.bw then .ok (true, Windows.HTTOPRIGHT)
    else if g.x < g.bw ∧ g.y > g.h - g.bw then .ok (true, Windows.HTBOTTOMLEFT)
    else if g.x > g.w - g.bw ∧ g.y > g.h - g.bw then .ok (true, Windows.HTBOTTOMRIGHT)
    else if g.y < g.bw then .ok (true, Windows.HTTOP)
    else if g.y > g.h - g.bw then .ok (true, Windows.HTBOTTOM)
    else if g.x < g.bw then .ok (true, Windows.HTLEFT)
    else if g.x > g.w - g.bw then .ok (true, Windows.HTRIGHT)
    else dispatch_titlebar cfg g.pt g.y

/-- `WindowsStyler._handle_hittest`: the whole body sits in a
`try: ... except Exception: return False, 0`, so every exception class is
downgraded to (False, 0). -/
def handle_hittest (cfg : Config) (maximized : Bool)
    (geo : Except PyExc HitGeo) : Bool × Int :=
  match handle_hittest_core cfg maximized geo with
  | .ok r => r
  | .error _ => (false, 0)

/-! ### Min/max constraints, `WindowsStyler._handle_getminmax` -/

/-- A `wintypes.RECT`. -/
structure Rect where
  left : Int
  top : Int
  right : Int
  bottom : Int
  deriving DecidableEq, Repr

/-- The `rcMonitor` (full bounds) and `rcWork` (work area) rectangles of a
`MONITORINFOEX` record filled in by `GetMonitorInfoW`. -/
structure MonitorInfo where
  rcMonitor : Rect
  rcWork : Rect
  deriving DecidableEq, Repr

/-- The fields of the `MINMAXINFO` record the handler writes through the
message's `lParam` pointer. -/
structure MinMaxOut where
  ptMaxPosition : Int × Int
  ptMaxSize : Int × Int
  ptMinTrackSize : Int × Int
  deriving DecidableEq, Repr

/-- The OS and toolkit answers `_handle_getminmax` consumes:
`MonitorFromWindow` (0 when no monitor resolves), `GetMonitorInfoW`
(`none` on failure) and the host window's declared minimum size queries,
which may raise (e.g. `RuntimeError` once the widget is destroyed). -/
structure MinMaxEnv where
  monitor : Int
  monitorInfo : Option MonitorInfo
  minimumWidth : Except PyExc Int
  minimumHeight : Except PyExc Int

/-- Truthiness of the `self.hwnd` field: Python `None` and `0` are falsy. -/
def hwndTruthy : Option Int → Bool
  | none => false
  | some h => h != 0

/-- Body of the `try` block of `_handle_getminmax` (everything after the
`lParam` validation). -/
def handle_getminmax_body (hwnd : Option Int) (env : MinMaxEnv) :
    Except PyExc (Option MinMaxOut × (Bool × Int)) :=
  if ¬ hwndTruthy hwnd then .ok (none, (false, 0))
  else if env.monitor = 0 then .ok (none, (false, 0))
  else match env.monitorInfo with
  | none => .ok (none, (false, 0))
  | some mi =>
    let work := mi.rcWork
    let full := mi.rcMonitor
    match env.minimumWidth, env.minimumHeight with
    | .ok mw, .ok mh =>
      .ok (some { ptMaxPosition := (work.left - full.left, work.top - full.top),
                  ptMaxSize := (work.right - work.left, work.bottom - work.top),
                  ptMinTrackSize := (max mw 200, max mh 100) },
           (true, 0))
    | .error e, _ => .error e
    | .ok _, .error e => .error e

/-- `WindowsStyler._handle_getminmax(msg)`: reject a null `lParam`, then
run the body under `except (OSError, ValueError)`; any other exception
class propagates to the caller (`nativeEvent` has no handler of its own).
The `MinMaxOut` component records what was written through the pointer
(`none` when nothing was written). -/
def handle_getminmax (hwnd : Option Int) (lParam : Int) (env : MinMaxEnv) :
    Except PyExc (Option MinMaxOut × (Bool × Int)) :=
  if lParam = 0 then .ok (none, (false, 0))
  else match handle_getminmax_body hwnd env with
  | .ok r => .ok r
  | .error e =>
    if caughtByGetMinMax e then .ok (none, (false, 0)) else .error e

/-! ### Mutable state and observable OS effects -/

/-- The cross-call mutable state: the styler's own fields plus the bits of
OS state its calls read back (`IsZoomed`, the active cursor).

Timer model: `corner_timer` holds the id of the `QTimer` object currently
referenced by `self._corner_timer`; it is never started, because
`QTimer.singleShot` is a static method that schedules an internal
single-shot timer of its own.  Those internal pending callbacks live in
`pendingShots` as (id, fire-time-ms) pairs; `nextTimerId` supplies fresh
ids. -/
structure State where
  hwnd : Option Int
  original_cursor : Option Int
  corner_timer : Option Nat
  last_corner_apply : Int
  pendingShots : List (Nat × Int)
  nextTimerId : Nat
  zoomed : Bool
  os_cursor : Int
  deriving DecidableEq, Repr

/-- Truthiness of `self._original_cursor`: `None` and a null handle (0)
are falsy, so the code treats both as "nothing saved". -/
def cursorTruthy : Option Int → Bool
  | none => false
  | some h => h != 0

/-- Observable side effects issued to the OS or the timer facility. -/
inductive Effect where
  | showWindow (cmd : Int)
  | setCursor (h : Int)
  | debounceTrigger
  | cornerApply
  deriving DecidableEq, Repr

/-- `WindowsStyler.isMaximized`: False on an absent/null handle, else
`bool(user32.IsZoomed(self.hwnd))`. -/
def isMaximized (st : State) : Bool :=
  if ¬ hwndTruthy st.hwnd then false else st.zoomed

/-- OS semantics of `user32.ShowWindow`: `SW_MAXIMIZE` zooms the window,
`SW_RESTORE` unzooms it (reflected by `IsZoomed`); a null handle is
rejected by the OS and changes nothing. -/
def showWindowOS (st : State) (cmd : Int) : State :=
  if ¬ hwndTruthy st.hwnd then st
  else if cmd = Windows.SW_MAXIMIZE then { st with zoomed := true }
  else if cmd = Windows.SW_RESTORE then { st with zoomed := false }
  else st

/-- `WindowsStyler._debounced_apply_corners` at wall-clock time `now` (ms).

The source first runs `self._corner_timer.stop()`: that stops only the
stored `QTimer` instance, which was created by `QTimer()` and never
started.  The delayed callback is then scheduled through
`self._corner_timer.singleShot(delay, ...)` — `QTimer.singleShot` is a
static method, so this creates a fresh internal single-shot timer that
the stored instance does not control.  Stopping the instance therefore
cancels none of the already-pending callbacks, and each call appends a
new pending one. -/
def debounced_apply_corners (st : State) (now : Int) : State × List Effect :=
  let delay := max 0 (50 - (now - st.last_corner_apply))
  let inst := st.nextTimerId
  let shot := st.nextTimerId + 1
  ({ st with corner_timer := some inst,
             nextTimerId := st.nextTimerId + 2,
             pendingShots := st.pendingShots ++ [(shot, now + delay)] },
   [Effect.debounceTrigger])

/-- The event loop at time `t`: every pending single-shot whose fire time
has arrived fires `WindowsStyler._apply_corners_now`, which records the
apply time and runs `apply_rounded_corners` (one `cornerApply` effect
each). -/
def fireDue (st : State) (t : Int) : State × List Effect :=
  let due := st.pendingShots.filter (fun p => decide (p.2 ≤ t))
  let rest := st.pendingShots.filter (fun p => decide (¬ p.2 ≤ t))
  ({ st with pendingShots := rest,
             last_corner_apply := if due.isEmpty then st.last_corner_apply else t },
   due.map (fun _ => Effect.cornerApply))

/-- `WindowsStyler.showMaximized`: no-op without a handle; otherwise
`ShowWindow(SW_MAXIMIZE)`, button-state update (tooltip only, no
dispatcher-visible state) and a debounced corner reapplication. -/
def showMaximized (st : State) (now : Int) : State × List Effect :=
  if ¬ hwndTruthy st.hwnd then (st, [])
  else
    let st1 := showWindowOS st Windows.SW_MAXIMIZE
    let r := debounced_apply_corners st1 now
    (r.1, Effect.showWindow Windows.SW_MAXIMIZE :: r.2)

/-- `WindowsStyler.showNormal`: no-op without a handle; otherwise
`ShowWindow(SW_RESTORE)` and a debounced corner reapplication. -/
def showNormal (st : State) (now : Int) : State × List Effect :=
  if ¬ hwndTruthy st.hwnd then (st, [])
  else
    let st1 := showWindowOS st Windows.SW_RESTORE
    let r := debounced_apply_corners st1 now
    (r.1, Effect.showWindow Windows.SW_RESTORE :: r.2)

/-! ### The dispatcher, `WindowsStyler.nativeEvent` -/

/-- The fields of the `wintypes.MSG` record the dispatcher reads. -/
structure MsgRec where
  message : Int
  wParam : Int
  lParam : Int
  deriving DecidableEq, Repr

/-- The per-call environment: the time of the call, the OS cursor query
answers, the toolkit geometry for hit-testing, the monitor data for
min/max handling, and the value the previously-installed handler
(`self._orig_native`) returns for this call. -/
structure DispatchEnv where
  now : Int
  getCursor : Int
  loadHand : Int
  hitGeo : Except PyExc HitGeo
  minmax : MinMaxEnv
  orig : Bool × Int

/-- The dispatch sequence from the `WM_NCCALCSIZE` re-check (source line
169) to the final fallback, shared by the paths that fall through the
`WM_SETCURSOR` block; `acc` carries effects already issued. -/
def nativeEventRest (cfg : Config) (st : State) (env : DispatchEnv)
    (msg : MsgRec) (acc : List Effect) :
    Except PyExc ((Bool × Int) × State × List Effect) :=
  if msg.message = Windows.WM_NCCALCSIZE ∨ msg.message = Windows.WM_NCPAINT
      ∨ msg.message = Windows.WM_NCACTIVATE then
    .ok ((true, 0), st, acc)
  else if msg.message = Windows.WM_NCLBUTTONDOWN ∨ msg.message = Windows.WM_NCLBUTTONUP
      ∨ msg.message = Windows.WM_NCLBUTTONDBLCLK then
    -- ht = int(msg.wParam): the guarded ValueError/OverflowError cannot
    -- occur for a machine-word wParam, so ht is always the wParam value
    let ht := msg.wParam
    if ht = Windows.HTMAXBUTTON then
      if msg.message = Windows.WM_NCLBUTTONDOWN then .ok ((true, 0), st, acc)
      else
        let old := isMaximized st
        let cmd := if old then Windows.SW_RESTORE else Windows.SW_MAXIMIZE
        let st1 := showWindowOS st cmd
        -- _update_maximize_button_state: tooltip only, no modelled state
        let r := debounced_apply_corners st1 env.now
        .ok ((true, 0), r.1, acc ++ [Effect.showWindow cmd] ++ r.2)
    else .ok (env.orig, st, acc)
  else if msg.message = Windows.WM_GETMINMAXINFO then
    match handle_getminmax st.hwnd msg.lParam env.minmax with
    | .ok r => .ok (r.2, st, acc)
    | .error e => .error e
  else if msg.message = Windows.WM_NCHITTEST then
    .ok (handle_hittest cfg (isMaximized st) env.hitGeo, st, acc)
  else if msg.message = Windows.WM_SIZE ∨ msg.message = Windows.WM_WINDOWPOSCHANGED
      ∨ msg.message = Windows.WM_EXITSIZEMOVE ∨ msg.message = Windows.WM_DPICHANGED then
    let r := debounced_apply_corners st env.now
    .ok (env.orig, r.1, acc ++ r.2)
  else .ok (env.orig, st, acc)

/-- `WindowsStyler.nativeEvent(eventType, message)`.  Non-generic event
types go straight to the original handler.  `WM_NCPAINT`/`WM_NCACTIVATE`
are swallowed first; the `WM_SETCURSOR` block may answer (True, 1) or
fall through (with its cursor bookkeeping applied) to the remaining
dispatch, which `nativeEventRest` models. -/
def nativeEvent (cfg : Config) (st : State) (env : DispatchEnv)
    (eventType : String) (msg : MsgRec) :
    Except PyExc ((Bool × Int) × State × List Effect) :=
  if eventType ≠ "windows_generic_MSG" then .ok (env.orig, st, [])
  else if msg.message = Windows.WM_NCPAINT ∨ msg.message = Windows.WM_NCACTIVATE then
    .ok ((true, 0), st, [])
  else if msg.message = Windows.WM_SETCURSOR then
    -- ht = int(msg.lParam) & 0xFFFF: the low word, equal to emod 2^16
    let ht := msg.lParam % 65536
    if ht = Windows.HTMAXBUTTON then
      let st1 :=
        if cursorTruthy st.original_cursor then st
        else { st with original_cursor := some env.getCursor }
      if env.loadHand ≠ 0 then
        .ok ((true, 1), { st1 with os_cursor := env.loadHand },
             [Effect.setCursor env.loadHand])
      else
        -- LoadCursorW failed: no return statement, execution falls
        -- through to the remaining dispatch (which WM_SETCURSOR misses)
        nativeEventRest cfg st1 env msg []
    else
      if cursorTruthy st.original_cursor then
        let saved := st.original_cursor.getD 0
        nativeEventRest cfg
          { st with original_cursor := none, os_cursor := saved } env msg
          [Effect.setCursor saved]
      else nativeEventRest cfg st env msg []
  else nativeEventRest cfg st env msg []

/-! ## Claim C3: corner precedence in the hit-test -/

/-- Claim C3: for every point strictly inside a non-maximized window of
width `w`, height `h` and scaled border `bw` with `bw < w/2` and
`bw < h/2`, the hit-test returns exactly one region; when the point lies
within `bw` of two adjacent edges a corner resize code is returned rather
than an edge code; and on a 400x300 window with scaled border 8, point
(2,2) yields the top-left corner code and (200,2) the top edge code. -/
theorem hittest_corner_precedence (cfg : Config) (geo : HitGeo)
    (hbw : 2 * geo.bw < geo.w) (hbh : 2 * geo.bw < geo.h)
    (hx0 : 0 ≤ geo.x) (hxw : geo.x < geo.w) (hy0 : 0 ≤ geo.y) (hyh : geo.y < geo.h) :
    (∃! r, handle_hittest cfg false (.ok geo) = r) ∧
    ((geo.x < geo.bw ∨ geo.x > geo.w - geo.bw) →
      (geo.y < geo.bw ∨ geo.y > geo.h - geo.bw) →
      (handle_hittest cfg false (.ok geo)).1 = true ∧
      (handle_hittest cfg false (.ok geo)).2 ∈ cornerCodes ∧
      (handle_hittest cfg false (.ok geo)).2 ∉ edgeCodes) ∧
    handle_hittest cfg false (.ok ⟨(2, 2), 2, 2, 400, 300, 8⟩) =
      (true, Windows.HTTOPLEFT) ∧
    handle_hittest cfg false (.ok ⟨(200, 2), 200, 2, 400, 300, 8⟩) =
      (true, Windows.HTTOP) := by
  refine ⟨⟨handle_hittest cfg false (.ok geo), rfl, fun y hy => hy.symm⟩, ?_, ?_, ?_⟩
  · intro hx hy
    simp only [handle_hittest, handle_hittest_core, Bool.false_eq_true, if_false]
    split_ifs <;>
      first
        | (exact ⟨rfl, by decide, by decide⟩)
        | omega
  · simp [handle_hittest, handle_hittest_core]
  · simp [handle_hittest, handle_hittest_core]

/-- Witness for C3 at a concrete corner point on a 400x300 window. -/
theorem hittest_corner_precedence_witness :
    2 * (8 : Int) < 400 ∧ 2 * (8 : Int) < 300 ∧
    (handle_hittest {} false (.ok ⟨(2, 2), 2, 2, 400, 300, 8⟩)).2 ∈ cornerCodes :=
  ⟨by decide, by decide,
    ((hittest_corner_precedence {} ⟨(2, 2), 2, 2, 400, 300, 8⟩ (by decide) (by decide)
      (by decide) (by decide) (by decide) (by decide)).2.1
      (Or.inl (by decide)) (Or.inl (by decide))).2.1⟩

/-! ## Claim C4: hit-testing a maximized window -/

/-- Hook used for the C4 counterexample: always answers the top-left
corner resize code. -/
def cornerHook : TitlebarHook := fun _ => .ok (some (true, Windows.HTTOPLEFT))

/-- Geometry of an interior point on a maximized 1920x1060 window. -/
def c4geo : HitGeo := { pt := (500, 5), x := 500, y := 5, w := 1920, h := 1060, bw := 8 }

/-- Counterexample to C4: with a registered title-bar hook answering a
corner code, hit-testing a maximized window returns that corner resize
code, not caption and not the client answer — the hook's definite answer
is forwarded unchanged even while maximized. -/
theorem hittest_maximized_hook_counterexample :
    handle_hittest { titlebar_hook := some cornerHook } true (.ok c4geo) =
      (true, Windows.HTTOPLEFT) ∧
    Windows.HTTOPLEFT ∈ borderCodes ∧
    (true, Windows.HTTOPLEFT) ≠ ((true, Windows.HTCAPTION) : Bool × Int) ∧
    (true, Windows.HTTOPLEFT) ≠ ((false, 0) : Bool × Int) := by
  exact ⟨rfl, by decide, by decide, by decide⟩

/-- Claim C4 (amended: when no title-bar hook is registered, or the
registered hook gives no definite answer): hit-testing a maximized window
never reaches the border/corner logic; the answer is either the draggable
caption code or the client (not handled) answer.  The hypothesis covers
both cases at once: any registered hook must answer "no opinion". -/
theorem hittest_maximized_no_hook (cfg : Config) (geo : Except PyExc HitGeo)
    (hhook : ∀ hook p, cfg.titlebar_hook = some hook → hook p = .ok none) :
    handle_hittest cfg true geo = (true, Windows.HTCAPTION) ∨
    handle_hittest cfg true geo = (false, 0) := by
  cases geo with
  | error e => exact Or.inr rfl
  | ok g =>
    simp only [handle_hittest, handle_hittest_core, dispatch_titlebar, if_true]
    cases hc : cfg.titlebar_hook with
    | none => split_ifs <;> simp
    | some hook =>
      simp only [hhook hook g.pt hc]
      split_ifs <;> simp

/-- A title-bar hook that always answers "no opinion". -/
def noOpinionHook : TitlebarHook := fun _ => .ok none

/-- Witness for C4's amended theorem with a registered no-opinion hook. -/
theorem hittest_maximized_no_hook_witness :
    handle_hittest { titlebar_hook := some noOpinionHook } true (.ok c4geo) =
      (true, Windows.HTCAPTION) ∨
    handle_hittest { titlebar_hook := some noOpinionHook } true (.ok c4geo) =
      (false, 0) :=
  hittest_maximized_no_hook { titlebar_hook := some noOpinionHook } (.ok c4geo)
    (fun hook p h => by cases Option.some.inj h; rfl)

/-! ## Claim C7: title-bar hook failures -/

/-- A title-bar hook that always raises the given exception class. -/
def raisingHook (e : PyExc) : TitlebarHook := fun _ => .error e

/-- An interior point (y = 15, inside the 30-pixel fallback band) on a
400x300 window with scaled border 8. -/
def c7geo : HitGeo := { pt := (100, 15), x := 100, y := 15, w := 400, h := 300, bw := 8 }

/-- Counterexample to C7: a hook raising `RuntimeError` (not one of the
classes the hook call site catches) skips the caption fallback entirely:
the error is caught one level up by the hit-test handler's broad except
clause and answered (False, 0), even though the point's vertical offset
15 is below the fallback title-bar height 30, where the claim promises
the caption code. -/
theorem titlebar_hook_error_counterexample :
    handle_hittest { titlebar_hook := some (raisingHook .runtimeError) } false
      (.ok c7geo) = (false, 0) ∧
    (15 : Int) < 30 ∧
    ((false, 0) : Bool × Int) ≠ (true, Windows.HTCAPTION) := by
  exact ⟨rfl, by decide, by decide⟩

/-- Claim C7 (amended): whether the window is maximized or not, whenever
the hit-test consults the hook (for a maximized window always, otherwise
at any point outside the border bands), a hook exception of class
`AttributeError`, `TypeError` or `ValueError` is treated as "no opinion"
and the decision falls back to caption when the vertical offset is below
the fallback title-bar height (client otherwise); an exception of any
other class is caught one level up by the hit-test handler and answered
(False, 0) regardless of the vertical offset. -/
theorem titlebar_hook_error_amended (cfg : Config) (e : PyExc) (geo : HitGeo)
    (maximized : Bool)
    (hhook : cfg.titlebar_hook = some (raisingHook e))
    (hint : maximized = false →
      ¬ geo.x < geo.bw ∧ ¬ geo.x > geo.w - geo.bw ∧
      ¬ geo.y < geo.bw ∧ ¬ geo.y > geo.h - geo.bw) :
    (caughtByTitlebarHook e = true →
      handle_hittest cfg maximized (.ok geo) =
        (if cfg.TITLE_BAR_FALLBACK && decide (geo.y < cfg.TITLE_BAR_FALLBACK_HEIGHT) then
          (true, Windows.HTCAPTION)
        else (false, 0))) ∧
    (caughtByTitlebarHook e = false →
      handle_hittest cfg maximized (.ok geo) = (false, 0)) := by
  cases maximized with
  | true =>
    constructor <;> intro hce <;>
      simp [handle_hittest, handle_hittest_core, dispatch_titlebar, hhook,
        raisingHook, hce]
  | false =>
    obtain ⟨h1, h2, h3, h4⟩ := hint rfl
    have hc1 : ¬ (geo.x < geo.bw ∧ geo.y < geo.bw) := fun hc => h1 hc.1
    have hc2 : ¬ (geo.x > geo.w - geo.bw ∧ geo.y < geo.bw) := fun hc => h2 hc.1
    have hc3 : ¬ (geo.x < geo.bw ∧ geo.y > geo.h - geo.bw) := fun hc => h1 hc.1
    have hc4 : ¬ (geo.x > geo.w - geo.bw ∧ geo.y > geo.h - geo.bw) := fun hc => h2 hc.1
    constructor <;> intro hce <;>
      simp [handle_hittest, handle_hittest_core, dispatch_titlebar, hhook, raisingHook,
        hc1, hc2, hc3, hc4, h1, h2, h3, h4, hce]

/-- Witness for C7's amended theorem: a `TypeError`-raising hook at an
interior point with the default fallback configuration, once on a
restored window and once on a maximized one. -/
theorem titlebar_hook_error_amended_witness :
    handle_hittest { titlebar_hook := some (raisingHook .typeError) } false (.ok c7geo) =
      (true, Windows.HTCAPTION) ∧
    handle_hittest { titlebar_hook := some (raisingHook .typeError) } true (.ok c7geo) =
      (true, Windows.HTCAPTION) := by
  constructor
  · have h := (titlebar_hook_error_amended
      { titlebar_hook := some (raisingHook .typeError) } .typeError c7geo false rfl
      (fun _ => by refine ⟨?_, ?_, ?_, ?_⟩ <;> decide)).1 rfl
    simpa using h
  · have h := (titlebar_hook_error_amended
      { titlebar_hook := some (raisingHook .typeError) } .typeError c7geo true rfl
      (fun hc => Bool.noConfusion hc)).1 rfl
    simpa using h

/-! ## Claim C6: min/max constraint computation -/

/-- The monitor of the C6 example: full bounds (0,0)-(1920,1080), work
area (10,10)-(1910,1070). -/
def c6mi : MonitorInfo :=
  { rcMonitor := ⟨0, 0, 1920, 1080⟩, rcWork := ⟨10, 10, 1910, 1070⟩ }

/-- The C6 environment: that monitor plus a host window declaring a
(200,100) minimum size. -/
def c6env : MinMaxEnv :=
  { monitor := 7, monitorInfo := some c6mi,
    minimumWidth := .ok 200, minimumHeight := .ok 100 }

/-- Claim C6: for the get-min-max-info message the maximized position
offset equals work-area origin minus monitor origin, the maximized size
equals the work-area width and height, and the minimum track size is the
host minimum clamped to the (200,100) floor; in particular the example
monitor with work area (10,10)-(1910,1070), bounds (0,0)-(1920,1080) and
host minimum (200,100) yields max position (10,10), max size (1900,1060)
and min track size (200,100). -/
theorem getminmax_constraints (hwnd : Option Int) (lParam : Int) (env : MinMaxEnv)
    (mi : MonitorInfo) (mw mh : Int)
    (hh : hwndTruthy hwnd = true) (hlp : lParam ≠ 0) (hmon : env.monitor ≠ 0)
    (hmi : env.monitorInfo = some mi)
    (hmw : env.minimumWidth = .ok mw) (hmh : env.minimumHeight = .ok mh) :
    handle_getminmax hwnd lParam env =
      .ok (some { ptMaxPosition := (mi.rcWork.left - mi.rcMonitor.left,
                                    mi.rcWork.top - mi.rcMonitor.top),
                  ptMaxSize := (mi.rcWork.right - mi.rcWork.left,
                                mi.rcWork.bottom - mi.rcWork.top),
                  ptMinTrackSize := (max mw 200, max mh 100) },
           (true, 0)) ∧
    handle_getminmax (some 1) 4096 c6env =
      .ok (some { ptMaxPosition := (10, 10), ptMaxSize := (1900, 1060),
                  ptMinTrackSize := (200, 100) }, (true, 0)) := by
  constructor
  · simp [handle_getminmax, handle_getminmax_body, hh, hlp, hmon, hmi, hmw, hmh]
  · rfl

/-- Witness for C6 at the example monitor and host minimum. -/
theorem getminmax_constraints_witness :
    handle_getminmax (some 1) 4096 c6env =
      .ok (some { ptMaxPosition := (10, 10), ptMaxSize := (1900, 1060),
                  ptMinTrackSize := (200, 100) }, (true, 0)) :=
  (getminmax_constraints (some 1) 4096 c6env c6mi 200 100 rfl (by decide) (by decide)
    rfl rfl rfl).2

/-! ## Claim C10: operations before the handle exists -/

/-- Claim C10: before the native handle is obtained (`hwnd` still unset),
`isMaximized` returns False and `showMaximized`/`showNormal` are no-ops
that issue no OS show-window call and leave all state unchanged. -/
theorem pre_handle_operations_safe (st : State) (now now2 : Int)
    (h : st.hwnd = none) :
    isMaximized st = false ∧
    showMaximized st now = (st, []) ∧
    showNormal st now2 = (st, []) := by
  simp [isMaximized, showMaximized, showNormal, hwndTruthy, h]

/-- A styler state before `_post_init` ran. -/
def preInitState : State :=
  { hwnd := none, original_cursor := none, corner_timer := none,
    last_corner_apply := 0, pendingShots := [], nextTimerId := 0,
    zoomed := false, os_cursor := 0 }

/-- Witness for C10 on the pre-init state. -/
theorem pre_handle_operations_safe_witness :
    isMaximized preInitState = false ∧
    showMaximized preInitState 5 = (preInitState, []) ∧
    showNormal preInitState 7 = (preInitState, []) :=
  pre_handle_operations_safe preInitState 5 7 rfl

/-! ## Claim C1: the debounce is not a debounce -/

/-- A styler whose last corner application happened at t = 990 ms. -/
def burstState : State :=
  { hwnd := some 1, original_cursor := none, corner_timer := none,
    last_corner_apply := 990, pendingShots := [], nextTimerId := 0,
    zoomed := false, os_cursor := 100 }

/-- Claim C1 is violated by the code (code bug): two corner-reapplication
triggers 10 ms apart (well inside the 50 ms window) leave TWO pending
delayed callbacks — `self._corner_timer.stop()` stops only the
never-started `QTimer` instance, while the callbacks were scheduled via
the static `QTimer.singleShot` — and once the interval elapses the event
loop fires both, applying corners twice instead of exactly once. -/
theorem debounce_burst_not_coalesced :
    ((debounced_apply_corners (debounced_apply_corners burstState 1000).1 1010).1).pendingShots.length = 2 ∧
    (fireDue (debounced_apply_corners (debounced_apply_corners burstState 1000).1 1010).1
      2000).2.count Effect.cornerApply = 2 := by decide

/-! ## Claim C9: cursor save idempotence on WM_SETCURSOR -/

/-- Claim C9: a cursor-set message indicating the maximize-button area
saves the current cursor only when none is saved — a second save in a row
leaves the originally saved cursor untouched — installs the pointing-hand
cursor and answers (True, 1); the single `original_cursor` slot keeps the
at-most-one-saved-cursor invariant. -/
theorem setcursor_save_idempotent (cfg : Config) (st : State) (env : DispatchEnv)
    (msg : MsgRec)
    (hm : msg.message = Windows.WM_SETCURSOR)
    (hlp : msg.lParam % 65536 = Windows.HTMAXBUTTON)
    (hload : env.loadHand ≠ 0) :
    (cursorTruthy st.original_cursor = true →
      nativeEvent cfg st env "windows_generic_MSG" msg =
        .ok ((true, 1), { st with os_cursor := env.loadHand },
             [Effect.setCursor env.loadHand])) ∧
    (cursorTruthy st.original_cursor = false →
      nativeEvent cfg st env "windows_generic_MSG" msg =
        .ok ((true, 1),
             { st with original_cursor := some env.getCursor,
                       os_cursor := env.loadHand },
             [Effect.setCursor env.loadHand])) := by
  constructor <;> intro hc <;>
    simp [nativeEvent, hm, hlp, hload, hc, Windows.WM_SETCURSOR, Windows.WM_NCPAINT,
      Windows.WM_NCACTIVATE, Windows.HTMAXBUTTON]

/-- A styler state with cursor handle 42 already saved. -/
def savedCursorState : State :=
  { hwnd := some 1, original_cursor := some 42, corner_timer := none,
    last_corner_apply := 0, pendingShots := [], nextTimerId := 0,
    zoomed := false, os_cursor := 42 }

/-- Environment for the C9 witness: current cursor 55, hand cursor 77. -/
def savedCursorEnv : DispatchEnv :=
  { now := 0, getCursor := 55, loadHand := 77,
    hitGeo := .error .runtimeError,
    minmax := { monitor := 0, monitorInfo := none,
                minimumWidth := .ok 0, minimumHeight := .ok 0 },
    orig := (false, 0) }

/-- Witness for C9: with cursor 42 already saved, the second save leaves
it saved and answers (True, 1) installing the hand cursor. -/
theorem setcursor_save_idempotent_witness :
    nativeEvent {} savedCursorState savedCursorEnv "windows_generic_MSG"
      ⟨Windows.WM_SETCURSOR, 0, 9⟩ =
      .ok ((true, 1), { savedCursorState with os_cursor := 77 },
           [Effect.setCursor 77]) :=
  (setcursor_save_idempotent {} savedCursorState savedCursorEnv
    ⟨Windows.WM_SETCURSOR, 0, 9⟩ rfl (by decide) (by decide)).1 rfl

/-! ## Claim C8: resize-family messages -/

/-- Claim C8: for every size, window-pos-changed, exit-size-move or
DPI-changed message the dispatcher triggers a debounced corner
reapplication and — the fallback handler answering (False, 0) as the
stock toolkit handler does — returns (False, 0), so default processing of
the resize continues. -/
theorem resize_messages_debounce (cfg : Config) (st : State) (env : DispatchEnv)
    (msg : MsgRec)
    (hm : msg.message = Windows.WM_SIZE ∨ msg.message = Windows.WM_WINDOWPOSCHANGED
        ∨ msg.message = Windows.WM_EXITSIZEMOVE ∨ msg.message = Windows.WM_DPICHANGED)
    (horig : env.orig = (false, 0)) :
    nativeEvent cfg st env "windows_generic_MSG" msg =
      .ok ((false, 0), (debounced_apply_corners st env.now).1,
           [Effect.debounceTrigger]) := by
  rcases hm with h | h | h | h <;>
    simp [nativeEvent, nativeEventRest, h, horig, debounced_apply_corners,
      Windows.WM_SIZE, Windows.WM_WINDOWPOSCHANGED, Windows.WM_EXITSIZEMOVE,
      Windows.WM_DPICHANGED, Windows.WM_NCPAINT, Windows.WM_NCACTIVATE,
      Windows.WM_SETCURSOR, Windows.WM_NCCALCSIZE, Windows.WM_NCLBUTTONDOWN,
      Windows.WM_NCLBUTTONUP, Windows.WM_NCLBUTTONDBLCLK,
      Windows.WM_GETMINMAXINFO, Windows.WM_NCHITTEST]

/-- Environment for the C8 witness. -/
def resizeEnv : DispatchEnv :=
  { now := 2000, getCursor := 1, loadHand := 2,
    hitGeo := .error .runtimeError,
    minmax := { monitor := 0, monitorInfo := none,
                minimumWidth := .ok 0, minimumHeight := .ok 0 },
    orig := (false, 0) }

/-- Witness for C8 on a WM_SIZE message. -/
theorem resize_messages_debounce_witness :
    nativeEvent {} burstState resizeEnv "windows_generic_MSG"
      ⟨Windows.WM_SIZE, 0, 0⟩ =
      .ok ((false, 0), (debounced_apply_corners burstState 2000).1,
           [Effect.debounceTrigger]) :=
  resize_messages_debounce {} burstState resizeEnv ⟨Windows.WM_SIZE, 0, 0⟩
    (Or.inl rfl) rfl

/-! ## Claim C5: maximize toggle on non-client button-up / double-click -/

/-- A non-client left-button-up message whose hit-test code is the
maximize button. -/
def maxBtnUp : MsgRec :=
  { message := Windows.WM_NCLBUTTONUP, wParam := Windows.HTMAXBUTTON, lParam := 0 }

/-- The state after one maximize toggle: show-window with the directive
opposite to the current maximized state, then a debounced corner
reapplication at time `now`. -/
def toggledState (st : State) (now : Int) : State :=
  (debounced_apply_corners
    (showWindowOS st
      (if isMaximized st then Windows.SW_RESTORE else Windows.SW_MAXIMIZE)) now).1

/-- The effects one maximize toggle issues. -/
def toggleEffects (st : State) : List Effect :=
  [Effect.showWindow (if isMaximized st then Windows.SW_RESTORE else Windows.SW_MAXIMIZE),
   Effect.debounceTrigger]

/-- A non-client left-button double-click message on the maximize
button. -/
def maxBtnDblClk : MsgRec :=
  { message := Windows.WM_NCLBUTTONDBLCLK, wParam := Windows.HTMAXBUTTON, lParam := 0 }

/-- The dispatcher's behaviour on any button-up or double-click message
carrying the maximize-button hit code, for any state. -/
theorem nativeEvent_maxButtonToggle (cfg : Config) (st : State) (env : DispatchEnv)
    (msg : MsgRec)
    (hm : msg.message = Windows.WM_NCLBUTTONUP
        ∨ msg.message = Windows.WM_NCLBUTTONDBLCLK)
    (hw : msg.wParam = Windows.HTMAXBUTTON) :
    nativeEvent cfg st env "windows_generic_MSG" msg =
      .ok ((true, 0), toggledState st env.now, toggleEffects st) := by
  rcases hm with h | h <;>
    simp [nativeEvent, nativeEventRest, h, hw, toggledState, toggleEffects,
      debounced_apply_corners,
      Windows.WM_NCLBUTTONUP, Windows.WM_NCLBUTTONDOWN, Windows.WM_NCLBUTTONDBLCLK,
      Windows.WM_NCPAINT, Windows.WM_NCACTIVATE, Windows.WM_SETCURSOR,
      Windows.WM_NCCALCSIZE, Windows.HTMAXBUTTON]

/-- Claim C5: a non-client button-up or double-click with the
maximize-button hit code issues the show-window directive opposite to the
current maximized state, triggers a debounced corner reapplication and
answers (True, 0); done twice (either message kind each time), the window
is back in its original maximized state and exactly one
corner-reapplication trigger was issued per toggle. -/
theorem maximize_toggle_roundtrip (cfg : Config) (st : State) (env env2 : DispatchEnv)
    (msg msg2 : MsgRec)
    (hm : msg.message = Windows.WM_NCLBUTTONUP
        ∨ msg.message = Windows.WM_NCLBUTTONDBLCLK)
    (hw : msg.wParam = Windows.HTMAXBUTTON)
    (hm2 : msg2.message = Windows.WM_NCLBUTTONUP
        ∨ msg2.message = Windows.WM_NCLBUTTONDBLCLK)
    (hw2 : msg2.wParam = Windows.HTMAXBUTTON)
    (hz : hwndTruthy st.hwnd = true) :
    nativeEvent cfg st env "windows_generic_MSG" msg =
      .ok ((true, 0), toggledState st env.now, toggleEffects st) ∧
    nativeEvent cfg (toggledState st env.now) env2 "windows_generic_MSG" msg2 =
      .ok ((true, 0), toggledState (toggledState st env.now) env2.now,
           toggleEffects (toggledState st env.now)) ∧
    Effect.showWindow
        (if isMaximized st then Windows.SW_RESTORE else Windows.SW_MAXIMIZE)
      ∈ toggleEffects st ∧
    isMaximized (toggledState st env.now) = !isMaximized st ∧
    isMaximized (toggledState (toggledState st env.now) env2.now) = isMaximized st ∧
    (toggleEffects st ++ toggleEffects (toggledState st env.now)).count
        Effect.debounceTrigger = 2 := by
  refine ⟨nativeEvent_maxButtonToggle cfg st env msg hm hw,
    nativeEvent_maxButtonToggle cfg _ env2 msg2 hm2 hw2, ?_, ?_, ?_, ?_⟩
  · simp [toggleEffects]
  · cases hst : st.zoomed <;>
      simp [toggledState, isMaximized, showWindowOS, debounced_apply_corners,
        hz, hst, Windows.SW_RESTORE, Windows.SW_MAXIMIZE]
  · cases hst : st.zoomed <;>
      simp [toggledState, isMaximized, showWindowOS, debounced_apply_corners,
        hz, hst, Windows.SW_RESTORE, Windows.SW_MAXIMIZE]
  · simp [toggleEffects, List.count_cons, List.count_append]

/-- Call environments for the C5 witness's two toggles. -/
def toggleEnv1 : DispatchEnv :=
  { now := 3000, getCursor := 1, loadHand := 2,
    hitGeo := .error .runtimeError,
    minmax := { monitor := 0, monitorInfo := none,
                minimumWidth := .ok 0, minimumHeight := .ok 0 },
    orig := (false, 0) }

/-- Second call environment, 100 ms later. -/
def toggleEnv2 : DispatchEnv := { toggleEnv1 with now := 3100 }

/-- A restored live window for the C5 witness. -/
def toggleStartState : State :=
  { hwnd := some 1, original_cursor := none, corner_timer := none,
    last_corner_apply := 0, pendingShots := [], nextTimerId := 0,
    zoomed := false, os_cursor := 1 }

/-- Witness for C5: two toggles from a restored live window, the first by
button-up, the second by double-click. -/
theorem maximize_toggle_roundtrip_witness :
    hwndTruthy toggleStartState.hwnd = true ∧
    (nativeEvent {} toggleStartState toggleEnv1 "windows_generic_MSG" maxBtnUp =
       .ok ((true, 0), toggledState toggleStartState toggleEnv1.now,
            toggleEffects toggleStartState) ∧
     nativeEvent {} (toggledState toggleStartState toggleEnv1.now) toggleEnv2
         "windows_generic_MSG" maxBtnDblClk =
       .ok ((true, 0),
            toggledState (toggledState toggleStartState toggleEnv1.now) toggleEnv2.now,
            toggleEffects (toggledState toggleStartState toggleEnv1.now)) ∧
     Effect.showWindow
         (if isMaximized toggleStartState then Windows.SW_RESTORE
          else Windows.SW_MAXIMIZE)
       ∈ toggleEffects toggleStartState ∧
     isMaximized (toggledState toggleStartState toggleEnv1.now) =
       !isMaximized toggleStartState ∧
     isMaximized
         (toggledState (toggledState toggleStartState toggleEnv1.now) toggleEnv2.now) =
       isMaximized toggleStartState ∧
     (toggleEffects toggleStartState ++
        toggleEffects (toggledState toggleStartState toggleEnv1.now)).count
         Effect.debounceTrigger = 2) :=
  ⟨rfl, maximize_toggle_roundtrip {} toggleStartState toggleEnv1 toggleEnv2
    maxBtnUp maxBtnDblClk (Or.inl rfl) rfl (Or.inr rfl) rfl rfl⟩

/-! ## Claim C2: fault containment at the dispatcher boundary -/

/-- When the minimum-width query raises a class the min/max handler's
`except (OSError, ValueError)` covers, or any earlier step bails out, the
handler answers (False, 0) without writing constraints. -/
theorem getminmax_minwidth_caught (hwnd : Option Int) (lParam : Int)
    (env : MinMaxEnv) (e : PyExc)
    (hw : env.minimumWidth = .error e) (hc : caughtByGetMinMax e = true) :
    handle_getminmax hwnd lParam env = .ok (none, (false, 0)) := by
  unfold handle_getminmax handle_getminmax_body
  split_ifs <;> try rfl
  cases hmi : env.monitorInfo <;> simp [hw, hc]

/-- A styler state after `_post_init` on a restored window. -/
def liveState : State :=
  { hwnd := some 1, original_cursor := none, corner_timer := none,
    last_corner_apply := 0, pendingShots := [], nextTimerId := 0,
    zoomed := false, os_cursor := 3 }

/-- Environment in which the host widget's `minimumWidth()` query raises
`RuntimeError` (as PySide does once the underlying widget is deleted),
a class outside the min/max handler's `except (OSError, ValueError)`. -/
def minWidthRaisesEnv : DispatchEnv :=
  { now := 1000, getCursor := 3, loadHand := 5,
    hitGeo := .error .runtimeError,
    minmax := { monitor := 7,
                monitorInfo := some { rcMonitor := ⟨0, 0, 1920, 1080⟩,
                                      rcWork := ⟨10, 10, 1910, 1070⟩ },
                minimumWidth := .error .runtimeError,
                minimumHeight := .ok 100 },
    orig := (false, 0) }

/-- Counterexample to C2: on a get-min-max-info message whose delegated
minimum-size query raises `RuntimeError`, the exception escapes
`nativeEvent` — there is no (False, 0) answer, the dispatcher boundary is
crossed and the OS message pump sees the raised error. -/
theorem dispatcher_exception_escapes :
    nativeEvent {} liveState minWidthRaisesEnv "windows_generic_MSG"
      ⟨Windows.WM_GETMINMAXINFO, 0, 4096⟩ = .error PyExc.runtimeError ∧
    (nativeEvent {} liveState minWidthRaisesEnv "windows_generic_MSG"
      ⟨Windows.WM_GETMINMAXINFO, 0, 4096⟩).toOption = none := by
  exact ⟨rfl, rfl⟩

/-- Claim C2 (amended): the hit-test path catches every exception class
(its broad except clause downgrades any failure, the message being
answered by the hit-test result, the state untouched); the min/max path
downgrades to (False, 0) only the OSError/ValueError classes its except
clause names — as the counterexample shows, other classes escape. -/
theorem dispatcher_fault_containment (cfg : Config) (st : State)
    (env : DispatchEnv) (msg : MsgRec) (e : PyExc) :
    (msg.message = Windows.WM_NCHITTEST →
      nativeEvent cfg st env "windows_generic_MSG" msg =
        .ok (handle_hittest cfg (isMaximized st) env.hitGeo, st, [])) ∧
    (msg.message = Windows.WM_GETMINMAXINFO →
      env.minmax.minimumWidth = .error e → caughtByGetMinMax e = true →
      nativeEvent cfg st env "windows_generic_MSG" msg =
        .ok ((false, 0), st, [])) := by
  constructor
  · intro hm
    simp [nativeEvent, nativeEventRest, hm, Windows.WM_NCHITTEST,
      Windows.WM_NCPAINT, Windows.WM_NCACTIVATE, Windows.WM_SETCURSOR,
      Windows.WM_NCCALCSIZE, Windows.WM_NCLBUTTONDOWN, Windows.WM_NCLBUTTONUP,
      Windows.WM_NCLBUTTONDBLCLK, Windows.WM_GETMINMAXINFO]
  · intro hm hw hc
    simp [nativeEvent, nativeEventRest, hm,
      getminmax_minwidth_caught st.hwnd msg.lParam env.minmax e hw hc,
      Windows.WM_GETMINMAXINFO, Windows.WM_NCPAINT, Windows.WM_NCACTIVATE,
      Windows.WM_SETCURSOR, Windows.WM_NCCALCSIZE, Windows.WM_NCLBUTTONDOWN,
      Windows.WM_NCLBUTTONUP, Windows.WM_NCLBUTTONDBLCLK]

/-- Environment whose minimum-width query raises `ValueError`, a class
the min/max handler does catch. -/
def minWidthValueErrorEnv : DispatchEnv :=
  { minWidthRaisesEnv with
    minmax := { minWidthRaisesEnv.minmax with minimumWidth := .error .valueError } }

/-- Witness for C2's amended theorem: a failing hit-test is answered
(False, 0) with the state untouched, and a ValueError in the min/max path
is downgraded to (False, 0). -/
theorem dispatcher_fault_containment_witness :
    nativeEvent {} liveState minWidthRaisesEnv "windows_generic_MSG"
      ⟨Windows.WM_NCHITTEST, 0, 0⟩ =
      .ok (handle_hittest {} (isMaximized liveState) minWidthRaisesEnv.hitGeo,
           liveState, []) ∧
    nativeEvent {} liveState minWidthValueErrorEnv "windows_generic_MSG"
      ⟨Windows.WM_GETMINMAXINFO, 0, 4096⟩ =
      .ok ((false, 0), liveState, []) :=
  ⟨(dispatcher_fault_containment {} liveState minWidthRaisesEnv
      ⟨Windows.WM_NCHITTEST, 0, 0⟩ .runtimeError).1 rfl,
   (dispatcher_fault_containment {} liveState minWidthValueErrorEnv
      ⟨Windows.WM_GETMINMAXINFO, 0, 4096⟩ .valueError).2 rfl rfl rfl⟩

end CustomQt
